import Mathlib

/-!
Verification of the Thrift integration module of baseplate
(`baseplate/integration/thrift/__init__.py`).

The module is embedded shallowly: Python byte-strings become `List Nat`
(one entry per byte), header mappings become association lists, Python
exceptions become an explicit error type threaded through `Except`, and
the external collaborators (the span facility, the edge-context factory,
the logger) are modelled by explicit data recorded on the result.
-/

/-- A Python byte-string: one `Nat` per byte. -/
abbrev ByteStr := List Nat

/-- Bytes of an ASCII string literal (used for the header-name constants
such as `b"Trace"`, which are all ASCII in the source). -/
def strBytes (s : String) : ByteStr := s.data.map Char.toNat

/-- A Thrift header mapping (`dict` of byte-string to byte-string),
as returned by `server_context.iprot.trans.get_headers()`. -/
abbrev Headers := List (ByteStr × ByteStr)

/-- `headers.get(k, None)` / presence test on the header dict. -/
def Headers.get? (hs : Headers) (k : ByteStr) : Option ByteStr :=
  List.lookup k hs

/-- The Python exception kinds distinguished by the module: `KeyError` and
`ValueError` are caught by `getHandlerContext`'s `except (KeyError,
ValueError)` clause (`UnicodeDecodeError` is a subclass of `ValueError`);
`otherError` stands for every other exception class, which that clause
does not catch. -/
inductive PyErr where
  | keyError
  | valueError
  | otherError
deriving DecidableEq, Repr

/-- Whether `except (KeyError, ValueError)` catches the exception. -/
def PyErr.isCaught : PyErr → Bool
  | .keyError => true
  | .valueError => true
  | .otherError => false

/-- Python dict subscription `d[k]` on an optional lookup result:
raises `KeyError` when the key is absent. -/
def getItem (v : Option ByteStr) : Except PyErr ByteStr :=
  match v with
  | some x => Except.ok x
  | none => Except.error PyErr.keyError

/-- ASCII decimal digit value. -/
def digVal (b : Nat) : Option Nat :=
  if 48 ≤ b ∧ b ≤ 57 then some (b - 48) else none

/-- Digit-run tail of Python's integer literal syntax: digits, with single
underscores allowed between digits. -/
def digitsTail (acc : Nat) : List Nat → Option Nat
  | [] => some acc
  | 95 :: b :: rest =>
    match digVal b with
    | some d => digitsTail (acc * 10 + d) rest
    | none => none
  | b :: rest =>
    match digVal b with
    | some d => digitsTail (acc * 10 + d) rest
    | none => none

/-- A nonempty digit run (with optional internal underscores). -/
def digitRun : List Nat → Option Nat
  | [] => none
  | b :: rest =>
    match digVal b with
    | some d => digitsTail d rest
    | none => none

/-- ASCII whitespace bytes stripped by Python's `int()` on bytes. -/
def isSpaceByte (b : Nat) : Bool :=
  b == 32 || b == 9 || b == 10 || b == 11 || b == 12 || b == 13

/-- Strip leading and trailing ASCII whitespace. -/
def stripWs (v : ByteStr) : ByteStr :=
  ((v.dropWhile isSpaceByte).reverse.dropWhile isSpaceByte).reverse

/-- Model of Python's `int(b)` on a byte-string in base 10: optional
surrounding ASCII whitespace, an optional sign, then a nonempty run of
decimal digits (single underscores allowed between digits).  `none`
models the `ValueError` raised on malformed input. -/
def pyInt? (v : ByteStr) : Option Int :=
  match stripWs v with
  | 43 :: rest => (digitRun rest).map (fun n => (n : Int))
  | 45 :: rest => (digitRun rest).map (fun n => -(n : Int))
  | rest => (digitRun rest).map (fun n => (n : Int))

/-- `int(b)` as an exception-raising computation. -/
def pyIntE (v : ByteStr) : Except PyErr Int :=
  match pyInt? v with
  | some n => Except.ok n
  | none => Except.error PyErr.valueError

/-- One step of strict UTF-8 decoding, as done by Python's
`bytes.decode("utf-8")`: given the first byte and the remaining bytes,
produce the first code point and the bytes after it, or `none` on a
malformed sequence (stray continuation byte, truncated sequence,
overlong encoding, surrogate, or value above U+10FFFF). -/
def utf8DecodeOne (b : Nat) (rest : List Nat) : Option (Nat × List Nat) :=
  if b < 0x80 then some (b, rest)
  else if b < 0xC2 then none
  else if b < 0xE0 then
    match rest with
    | b1 :: rest1 =>
      if 0x80 ≤ b1 ∧ b1 < 0xC0 then
        some ((b - 0xC0) * 0x40 + (b1 - 0x80), rest1)
      else none
    | _ => none
  else if b < 0xF0 then
    match rest with
    | b1 :: b2 :: rest2 =>
      if (0x80 ≤ b1 ∧ b1 < 0xC0) ∧ (0x80 ≤ b2 ∧ b2 < 0xC0) ∧
          (b = 0xE0 → 0xA0 ≤ b1) ∧ (b = 0xED → b1 < 0xA0) then
        some ((b - 0xE0) * 0x1000 + (b1 - 0x80) * 0x40 + (b2 - 0x80), rest2)
      else none
    | _ => none
  else if b < 0xF5 then
    match rest with
    | b1 :: b2 :: b3 :: rest3 =>
      if (0x80 ≤ b1 ∧ b1 < 0xC0) ∧ (0x80 ≤ b2 ∧ b2 < 0xC0) ∧ (0x80 ≤ b3 ∧ b3 < 0xC0) ∧
          (b = 0xF0 → 0x90 ≤ b1) ∧ (b = 0xF4 → b1 < 0x90) then
        some ((b - 0xF0) * 0x40000 + (b1 - 0x80) * 0x1000 + (b2 - 0x80) * 0x40 + (b3 - 0x80), rest3)
      else none
    | _ => none
  else none

/-- The decoding loop, structurally recursive on a fuel argument.  Every
successful `utf8DecodeOne` step consumes at least one byte, so running
with fuel equal to the byte count (as `utf8Decode` does) never exhausts
the fuel before the input is empty. -/
def utf8DecodeAux : Nat → List Nat → Option (List Nat)
  | _, [] => some []
  | 0, _ :: _ => none
  | fuel + 1, b :: rest =>
    match utf8DecodeOne b rest with
    | some (cp, rest1) => (utf8DecodeAux fuel rest1).map (fun cps => cp :: cps)
    | none => none

/-- Strict UTF-8 decoding of a byte sequence to its code points, as done
by Python's `bytes.decode("utf-8")`.  `none` models the
`UnicodeDecodeError` (a subclass of `ValueError`). -/
def utf8Decode (v : List Nat) : Option (List Nat) := utf8DecodeAux v.length v

/-- The `sampled` decoding step of `_get_trace_info`:
`True if extracted_values["sampled"].decode("utf-8") == "1" else False`.
The code point of `"1"` is 49. -/
def sampledDecode (v : ByteStr) : Except PyErr Bool :=
  match utf8Decode v with
  | some cps => Except.ok (cps == [49])
  | none => Except.error PyErr.valueError

/-- The immutable trace descriptor.  The field names follow the logical
trace fields; the constructor argument order of `TraceInfo.from_upstream`
below follows the call in `_get_trace_info`. -/
structure TraceInfo where
  trace_id : Int
  parent_id : Int
  span_id : Int
  sampled : Bool
  flags : Option Int
deriving DecidableEq, Repr

/-- Modelled from the spec: `TraceInfo.from_upstream` lives in
`baseplate/core.py`, which is not part of the sources under review; the
spec describes the descriptor as an immutable value holding
trace_id/span_id/parent_span_id/sampled and optional flags, produced
whole or not at all.  It is therefore modelled as the plain constructor
of that value, with the argument order used at its call site in
`_get_trace_info` (trace_id, parent_id, span_id, sampled, flags). -/
def TraceInfo.from_upstream (trace_id parent_id span_id : Int) (sampled : Bool)
    (flags : Option Int) : TraceInfo :=
  { trace_id := trace_id, parent_id := parent_id, span_id := span_id,
    sampled := sampled, flags := flags }

/-- `TRACE_HEADER_NAMES`: the candidate header names for each logical
trace field, canonical name first, legacy B3 name second. -/
def TRACE_HEADER_NAMES : List (String × (ByteStr × ByteStr)) :=
  [("trace_id", (strBytes "Trace", strBytes "B3-TraceId")),
   ("span_id", (strBytes "Span", strBytes "B3-SpanId")),
   ("parent_span_id", (strBytes "Parent", strBytes "B3-ParentSpanId")),
   ("sampled", (strBytes "Sampled", strBytes "B3-Sampled")),
   ("flags", (strBytes "Flags", strBytes "B3-Flags"))]

/-- First present candidate header name wins: the canonical name is
consulted before the fallback name. -/
def lookupCandidates (headers : Headers) : ByteStr × ByteStr → Option ByteStr
  | (canonical, fallback) =>
    match headers.get? canonical with
    | some v => some v
    | none => headers.get? fallback

/-- Modelled from the spec: `TraceInfo.extract_upstream_header_values`
lives in `baseplate/core.py`, which is not part of the sources under
review.  Per the spec's Header Codec contract it takes the table of
logical-field to candidate-header-names and the header mapping, and for
each logical field selects the value of the first candidate name that is
present; fields with no present candidate are left out of the resulting
mapping (their subscription in `_get_trace_info` then raises `KeyError`,
and `.get("flags", None)` yields `None`). -/
def extract_upstream_header_values (table : List (String × (ByteStr × ByteStr)))
    (headers : Headers) : List (String × ByteStr) :=
  table.filterMap
    (fun fieldNames =>
      (lookupCandidates headers fieldNames.2).map (fun v => (fieldNames.1, v)))

/-- `BaseplateProcessorEventHandler._get_trace_info`: extract the
candidate header values, then build the descriptor via
`TraceInfo.from_upstream(int(trace), int(parent), int(span),
sampled == "1", int(flags) if flags is not None else None)`.
Subscription of a missing mandatory field raises `KeyError`; a malformed
integer or invalid UTF-8 in `sampled` raises `ValueError`.  The match
cascade follows Python's left-to-right evaluation of the arguments. -/
def _get_trace_info (headers : Headers) : Except PyErr TraceInfo :=
  let extracted := extract_upstream_header_values TRACE_HEADER_NAMES headers
  let flags := List.lookup "flags" extracted
  match getItem (List.lookup "trace_id" extracted) with
  | Except.error e => Except.error e
  | Except.ok traceV =>
    match pyIntE traceV with
    | Except.error e => Except.error e
    | Except.ok tid =>
      match getItem (List.lookup "parent_span_id" extracted) with
      | Except.error e => Except.error e
      | Except.ok parentV =>
        match pyIntE parentV with
        | Except.error e => Except.error e
        | Except.ok pid =>
          match getItem (List.lookup "span_id" extracted) with
          | Except.error e => Except.error e
          | Except.ok spanV =>
            match pyIntE spanV with
            | Except.error e => Except.error e
            | Except.ok sid =>
              match getItem (List.lookup "sampled" extracted) with
              | Except.error e => Except.error e
              | Except.ok sampledV =>
                match sampledDecode sampledV with
                | Except.error e => Except.error e
                | Except.ok sflag =>
                  match flags with
                  | some flagsV =>
                    match pyIntE flagsV with
                    | Except.error e => Except.error e
                    | Except.ok fl =>
                      Except.ok (TraceInfo.from_upstream tid pid sid sflag (some fl))
                  | none =>
                    Except.ok (TraceInfo.from_upstream tid pid sid sflag none)

/-- A value attached as a span tag: `peer.ipv4` carries the peer address
(a byte-string), `peer.port` an integer port. -/
inductive TagVal where
  | s (v : ByteStr)
  | i (v : Int)
deriving DecidableEq, Repr

/-- The outcome recorded by one call to `trace.finish(...)`: `success`
for the plain `finish()` of `handlerDone`, `error exc` for the
`finish(exc_info=...)` of `handlerError` (carrying the active
exception).  The span facility is external, so a finish call is
modelled as an event appended to the span's `finishes` log: a span
finished more than once shows more than one entry. -/
inductive FinishKind where
  | success
  | error (exc : String)
deriving DecidableEq, Repr

/-- The server span, as far as this module observes and mutates it.
`is_finished` is a dynamic Python attribute: absent (`none`) until some
code assigns it, read via `getattr(trace, "is_finished", False)`. -/
structure Span where
  name : String
  trace_info : Option TraceInfo
  started : Bool
  finishes : List FinishKind
  is_finished : Option Bool
  tags : List (String × TagVal)
deriving DecidableEq, Repr

/-- `trace.start()`. -/
def Span.start (s : Span) : Span := { s with started := true }

/-- `trace.finish()` / `trace.finish(exc_info=...)`: the external span
facility records the finish event. -/
def Span.finish (s : Span) (outcome : FinishKind) : Span :=
  { s with finishes := s.finishes ++ [outcome] }

/-- `trace.set_tag(key, value)`. -/
def Span.set_tag (s : Span) (key : String) (v : TagVal) : Span :=
  { s with tags := s.tags ++ [(key, v)] }

/-- Modelled from the spec: `baseplate.make_server_span` lives in
`baseplate/core.py`, which is not part of the sources under review.  Per
the spec's span-creation facility contract it returns a new span named
after the operation, seeded with the trace descriptor when one was
obtained (root span otherwise), in the `created` state: not started, no
finish recorded, no tags, the `is_finished` attribute not set. -/
def make_server_span (name : String) (trace_info : Option TraceInfo) : Span :=
  { name := name, trace_info := trace_info, started := false,
    finishes := [], is_finished := none, tags := [] }

/-- A decoded edge-request context, as produced by the optional
`edge_context_factory.from_upstream`; its contents are opaque to this
module (`attach_context` merely stores it on the request context). -/
structure EdgeContext where
  ident : Nat
deriving DecidableEq, Repr

/-- The request context returned by `getHandlerContext`.  Python's
`RequestContext` is an empty class that acquires attributes dynamically;
the model gives each attribute this module may set an explicit slot.
`raw_request_context = none` means the attribute was never set;
`some p` means it was set to the payload `p` (itself `None` when the
`Edge-Request` header was absent). -/
structure RequestContext where
  headers : Headers
  trace : Span
  raw_request_context : Option (Option ByteStr)
  edge_context : Option EdgeContext
deriving DecidableEq, Repr

/-- The relevant capabilities of the Thrift `server_context` argument:
the header transport, and `getPeerName()`, which is `none` when the
transport is not a socket (attribute lookup raises `AttributeError`). -/
structure ServerContext where
  headers : Headers
  peerName : Option (ByteStr × Int)

/-- The `BaseplateProcessorEventHandler`.  `logger` and `baseplate` are
external collaborators: log emission is modelled by the log-entry lists
the hooks return, and the baseplate instance by `make_server_span`.  The
optional `edge_context_factory` is kept, modelled by its `from_upstream`
method: a function from the optional `Edge-Request` payload to a decoded
edge context or an exception. -/
structure Handler where
  edge_context_factory : Option (Option ByteStr → Except PyErr EdgeContext)

/-- A log entry: level, format string, and the `fn_name` argument. -/
structure LogEntry where
  level : String
  message : String
  arg : String
deriving DecidableEq, Repr

/-- `BaseplateProcessorEventHandler.getHandlerContext`.  The `try` block
runs `_get_trace_info`, then looks up the `Edge-Request` payload and
either invokes the edge-context factory or stores the raw payload;
`except (KeyError, ValueError): pass` swallows those two exception
classes wherever they arise in the block, keeping whatever assignments
already happened (`trace_info` keeps its value when the factory raises
after a successful extraction).  Any other exception propagates.  Then
the span is created, peer tags are attached when `getPeerName` exists,
and headers and span are stored on the context. -/
def getHandlerContext (h : Handler) (fn_name : String) (server_context : ServerContext) :
    Except PyErr RequestContext :=
  let headers := server_context.headers
  let tryOut : Except PyErr (Option TraceInfo × Option (Option ByteStr) × Option EdgeContext) :=
    match _get_trace_info headers with
    | Except.error e =>
      if e.isCaught then Except.ok (none, none, none) else Except.error e
    | Except.ok ti =>
      let edge_payload := headers.get? (strBytes "Edge-Request")
      match h.edge_context_factory with
      | some factory =>
        match factory edge_payload with
        | Except.ok ec => Except.ok (some ti, none, some ec)
        | Except.error e =>
          if e.isCaught then Except.ok (some ti, none, none) else Except.error e
      | none => Except.ok (some ti, some edge_payload, none)
  match tryOut with
  | Except.error e => Except.error e
  | Except.ok (trace_info, raw_rc, edge_ctx) =>
    let trace := make_server_span fn_name trace_info
    let trace :=
      match server_context.peerName with
      | some peer => (trace.set_tag "peer.ipv4" (TagVal.s peer.1)).set_tag "peer.port" (TagVal.i peer.2)
      | none => trace
    Except.ok { headers := headers, trace := trace,
                raw_request_context := raw_rc, edge_context := edge_ctx }

/-- `BaseplateProcessorEventHandler.postRead`: debug-log the operation
and start the span. -/
def postRead (ctx : RequestContext) (fn_name : String) : RequestContext × List LogEntry :=
  ({ ctx with trace := ctx.trace.start },
   [{ level := "debug", message := "Handling: %r", arg := fn_name }])

/-- `BaseplateProcessorEventHandler.handlerDone`: finish the span unless
`getattr(trace, "is_finished", False)` is already true.  It does not
itself set `is_finished`. -/
def handlerDone (ctx : RequestContext) (fn_name : String) : RequestContext × List LogEntry :=
  if (ctx.trace.is_finished.getD false) = true then (ctx, [])
  else ({ ctx with trace := ctx.trace.finish FinishKind.success }, [])

/-- `BaseplateProcessorEventHandler.handlerError`: unconditionally
finish the span with the active exception, set `is_finished = True`, and
log the failure at error level (`logger.exception` logs at `ERROR`). -/
def handlerError (ctx : RequestContext) (fn_name : String) (exc : String) :
    RequestContext × List LogEntry :=
  let t := ctx.trace.finish (FinishKind.error exc)
  ({ ctx with trace := { t with is_finished := some true } },
   [{ level := "error", message := "Unexpected exception in %r.", arg := fn_name }])

/-- A header set carrying the four mandatory fields (and optionally
flags) under their canonical names. -/
def canonicalHeaders (t s p sm : ByteStr) (f : Option ByteStr) : Headers :=
  [(strBytes "Trace", t), (strBytes "Span", s),
   (strBytes "Parent", p), (strBytes "Sampled", sm)] ++
  (match f with
   | some fv => [(strBytes "Flags", fv)]
   | none => [])

/-- The same header set under the fallback (legacy B3) names. -/
def fallbackHeaders (t s p sm : ByteStr) (f : Option ByteStr) : Headers :=
  [(strBytes "B3-TraceId", t), (strBytes "B3-SpanId", s),
   (strBytes "B3-ParentSpanId", p), (strBytes "B3-Sampled", sm)] ++
  (match f with
   | some fv => [(strBytes "B3-Flags", fv)]
   | none => [])

/-- An integer trace field is absent under both candidate names, or
present with a value `int()` rejects. -/
def intFieldBad (headers : Headers) (names : ByteStr × ByteStr) : Bool :=
  match lookupCandidates headers names with
  | none => true
  | some v => (pyInt? v).isNone

/-- The sampled field is absent under both candidate names, or present
with bytes that are not valid UTF-8. -/
def sampledFieldBad (headers : Headers) : Bool :=
  match lookupCandidates headers (strBytes "Sampled", strBytes "B3-Sampled") with
  | none => true
  | some v => (utf8Decode v).isNone

/-- Fixture: the spec's worked example, `{Trace: "100", Span: "2",
Parent: "1", Sampled: "1"}`. -/
def exampleHeaders : Headers :=
  [(strBytes "Trace", strBytes "100"), (strBytes "Span", strBytes "2"),
   (strBytes "Parent", strBytes "1"), (strBytes "Sampled", strBytes "1")]

/-- Fixture: valid integer fields, `Sampled` present but not a decimal
integer (`"abc"`). -/
def headersSampledNonDecimal : Headers :=
  [(strBytes "Trace", strBytes "100"), (strBytes "Span", strBytes "2"),
   (strBytes "Parent", strBytes "1"), (strBytes "Sampled", strBytes "abc")]

/-- Fixture: valid integer fields, `Sampled` present with the byte 255,
which is not valid UTF-8. -/
def headersSampledNonUtf8 : Headers :=
  [(strBytes "Trace", strBytes "100"), (strBytes "Span", strBytes "2"),
   (strBytes "Parent", strBytes "1"), (strBytes "Sampled", [255])]

/-- Fixture: valid trace headers with an `Edge-Request` payload present. -/
def headersWithEdge : Headers :=
  exampleHeaders ++ [(strBytes "Edge-Request", strBytes "payload")]

/-- Fixture: headers missing `Sampled` entirely (the spec's scenario),
with an `Edge-Request` payload present. -/
def headersNoSampled : Headers :=
  [(strBytes "Trace", strBytes "100"), (strBytes "Span", strBytes "2"),
   (strBytes "Parent", strBytes "1"), (strBytes "Edge-Request", strBytes "payload")]

/-- Fixture: an edge-context factory whose decode fails with
`ValueError` on every payload. -/
def decoderValueError : Option ByteStr → Except PyErr EdgeContext :=
  fun _ => Except.error PyErr.valueError

/-- Fixture: an edge-context factory whose decode fails with an
exception class other than `KeyError`/`ValueError`. -/
def decoderOtherError : Option ByteStr → Except PyErr EdgeContext :=
  fun _ => Except.error PyErr.otherError

/-- Fixture: a request context as produced for a root span, after
`postRead` started the span. -/
def startedContext : RequestContext :=
  { headers := exampleHeaders,
    trace := (make_server_span "ping" none).start,
    raw_request_context := some none, edge_context := none }

theorem getItem_error_iff (v : Option ByteStr) (e : PyErr) :
    getItem v = Except.error e ↔ v = none ∧ e = PyErr.keyError := by
  cases v <;> simp [getItem, eq_comm]

theorem getItem_ok_iff (v : Option ByteStr) (x : ByteStr) :
    getItem v = Except.ok x ↔ v = some x := by
  cases v <;> simp [getItem]

theorem pyIntE_error_iff (v : ByteStr) (e : PyErr) :
    pyIntE v = Except.error e ↔ pyInt? v = none ∧ e = PyErr.valueError := by
  unfold pyIntE
  cases pyInt? v <;> simp [eq_comm]

theorem pyIntE_ok_iff (v : ByteStr) (n : Int) :
    pyIntE v = Except.ok n ↔ pyInt? v = some n := by
  unfold pyIntE
  cases pyInt? v <;> simp

theorem sampledDecode_error_iff (v : ByteStr) (e : PyErr) :
    sampledDecode v = Except.error e ↔ utf8Decode v = none ∧ e = PyErr.valueError := by
  unfold sampledDecode
  cases utf8Decode v <;> simp [eq_comm]

theorem sampledDecode_ok_utf8 (v : ByteStr) (b : Bool)
    (h : sampledDecode v = Except.ok b) : (utf8Decode v).isSome = true := by
  unfold sampledDecode at h
  cases hu : utf8Decode v <;> simp [hu] at h ⊢


/-- Every exception `_get_trace_info` raises is a `KeyError` or a
`ValueError`, hence caught by `getHandlerContext`'s except clause. -/
theorem _get_trace_info_error_caught (headers : Headers) (e : PyErr)
    (h : _get_trace_info headers = Except.error e) : e.isCaught = true := by
  unfold _get_trace_info at h
  simp only [] at h
  repeat' split at h
  all_goals
    simp_all [getItem_error_iff, pyIntE_error_iff, sampledDecode_error_iff, PyErr.isCaught]
  all_goals (cases h)
  all_goals rfl

theorem lookup_extracted_trace_id (headers : Headers) :
    List.lookup "trace_id" (extract_upstream_header_values TRACE_HEADER_NAMES headers) =
      lookupCandidates headers (strBytes "Trace", strBytes "B3-TraceId") := by
  simp only [extract_upstream_header_values, TRACE_HEADER_NAMES, List.filterMap_cons,
    List.filterMap_nil]
  cases lookupCandidates headers (strBytes "Trace", strBytes "B3-TraceId") <;>
    cases lookupCandidates headers (strBytes "Span", strBytes "B3-SpanId") <;>
    cases lookupCandidates headers (strBytes "Parent", strBytes "B3-ParentSpanId") <;>
    cases lookupCandidates headers (strBytes "Sampled", strBytes "B3-Sampled") <;>
    cases lookupCandidates headers (strBytes "Flags", strBytes "B3-Flags") <;>
    simp [List.lookup]

theorem lookup_extracted_span_id (headers : Headers) :
    List.lookup "span_id" (extract_upstream_header_values TRACE_HEADER_NAMES headers) =
      lookupCandidates headers (strBytes "Span", strBytes "B3-SpanId") := by
  simp only [extract_upstream_header_values, TRACE_HEADER_NAMES, List.filterMap_cons,
    List.filterMap_nil]
  cases lookupCandidates headers (strBytes "Trace", strBytes "B3-TraceId") <;>
    cases lookupCandidates headers (strBytes "Span", strBytes "B3-SpanId") <;>
    cases lookupCandidates headers (strBytes "Parent", strBytes "B3-ParentSpanId") <;>
    cases lookupCandidates headers (strBytes "Sampled", strBytes "B3-Sampled") <;>
    cases lookupCandidates headers (strBytes "Flags", strBytes "B3-Flags") <;>
    simp [List.lookup]

theorem lookup_extracted_parent_span_id (headers : Headers) :
    List.lookup "parent_span_id" (extract_upstream_header_values TRACE_HEADER_NAMES headers) =
      lookupCandidates headers (strBytes "Parent", strBytes "B3-ParentSpanId") := by
  simp only [extract_upstream_header_values, TRACE_HEADER_NAMES, List.filterMap_cons,
    List.filterMap_nil]
  cases lookupCandidates headers (strBytes "Trace", strBytes "B3-TraceId") <;>
    cases lookupCandidates headers (strBytes "Span", strBytes "B3-SpanId") <;>
    cases lookupCandidates headers (strBytes "Parent", strBytes "B3-ParentSpanId") <;>
    cases lookupCandidates headers (strBytes "Sampled", strBytes "B3-Sampled") <;>
    cases lookupCandidates headers (strBytes "Flags", strBytes "B3-Flags") <;>
    simp [List.lookup]

theorem lookup_extracted_sampled (headers : Headers) :
    List.lookup "sampled" (extract_upstream_header_values TRACE_HEADER_NAMES headers) =
      lookupCandidates headers (strBytes "Sampled", strBytes "B3-Sampled") := by
  simp only [extract_upstream_header_values, TRACE_HEADER_NAMES, List.filterMap_cons,
    List.filterMap_nil]
  cases lookupCandidates headers (strBytes "Trace", strBytes "B3-TraceId") <;>
    cases lookupCandidates headers (strBytes "Span", strBytes "B3-SpanId") <;>
    cases lookupCandidates headers (strBytes "Parent", strBytes "B3-ParentSpanId") <;>
    cases lookupCandidates headers (strBytes "Sampled", strBytes "B3-Sampled") <;>
    cases lookupCandidates headers (strBytes "Flags", strBytes "B3-Flags") <;>
    simp [List.lookup]

theorem lookup_extracted_flags (headers : Headers) :
    List.lookup "flags" (extract_upstream_header_values TRACE_HEADER_NAMES headers) =
      lookupCandidates headers (strBytes "Flags", strBytes "B3-Flags") := by
  simp only [extract_upstream_header_values, TRACE_HEADER_NAMES, List.filterMap_cons,
    List.filterMap_nil]
  cases lookupCandidates headers (strBytes "Trace", strBytes "B3-TraceId") <;>
    cases lookupCandidates headers (strBytes "Span", strBytes "B3-SpanId") <;>
    cases lookupCandidates headers (strBytes "Parent", strBytes "B3-ParentSpanId") <;>
    cases lookupCandidates headers (strBytes "Sampled", strBytes "B3-Sampled") <;>
    cases lookupCandidates headers (strBytes "Flags", strBytes "B3-Flags") <;>
    simp [List.lookup]

/-- When `_get_trace_info` succeeds, every mandatory field was present
and decodable: none of the badness predicates holds. -/
theorem _get_trace_info_ok_fields (headers : Headers) (ti : TraceInfo)
    (h : _get_trace_info headers = Except.ok ti) :
    intFieldBad headers (strBytes "Trace", strBytes "B3-TraceId") = false ∧
    intFieldBad headers (strBytes "Span", strBytes "B3-SpanId") = false ∧
    intFieldBad headers (strBytes "Parent", strBytes "B3-ParentSpanId") = false ∧
    sampledFieldBad headers = false := by
  unfold _get_trace_info at h
  simp only [] at h
  rw [lookup_extracted_trace_id, lookup_extracted_span_id, lookup_extracted_parent_span_id,
    lookup_extracted_sampled, lookup_extracted_flags] at h
  repeat' split at h
  all_goals
    simp_all [intFieldBad, sampledFieldBad, getItem_ok_iff, pyIntE_ok_iff]
  all_goals (apply sampledDecode_ok_utf8; assumption)

/-- The one-step decoder yields a code point below 128 only for the
identical ASCII byte, leaving the rest untouched: multibyte sequences
decode to code points of at least 128 (the strict decoder rejects
overlong encodings). -/
theorem utf8DecodeOne_ascii (b : Nat) (rest : List Nat) (cp : Nat) (rest1 : List Nat)
    (h : utf8DecodeOne b rest = some (cp, rest1)) (hcp : cp < 0x80) :
    b = cp ∧ rest1 = rest := by
  unfold utf8DecodeOne at h
  repeat' split at h
  all_goals (try (exact Option.noConfusion h))
  all_goals (injection h with h; injection h with h1 h2)
  · exact ⟨h1.symm ▸ rfl, h2.symm⟩
  all_goals (exfalso; omega)

/-- Only the empty byte sequence UTF-8-decodes to the empty string. -/
theorem utf8DecodeAux_eq_nil (fuel : Nat) (v : List Nat)
    (h : utf8DecodeAux fuel v = some []) : v = [] := by
  match fuel, v with
  | _, [] => rfl
  | 0, b :: rest => exact Option.noConfusion h
  | fuel + 1, b :: rest =>
    exfalso
    simp only [utf8DecodeAux] at h
    cases hone : utf8DecodeOne b rest with
    | none => rw [hone] at h; simp at h
    | some pr =>
      obtain ⟨cp, rest1⟩ := pr
      rw [hone] at h
      simp only [Option.map_eq_some'] at h
      obtain ⟨cps, hr, hcons⟩ := h
      exact List.noConfusion hcons

/-- Only the single byte 49 UTF-8-decodes to the one-character string
`"1"` (code point 49). -/
theorem utf8DecodeAux_eq_one (fuel : Nat) (v : List Nat)
    (h : utf8DecodeAux fuel v = some [49]) : v = [49] := by
  match fuel, v with
  | _, [] => exact absurd h (by simp [utf8DecodeAux])
  | 0, b :: rest => exact Option.noConfusion h
  | fuel + 1, b :: rest =>
    simp only [utf8DecodeAux] at h
    cases hone : utf8DecodeOne b rest with
    | none =>
      rw [hone] at h
      simp at h
    | some pr =>
      obtain ⟨cp, rest1⟩ := pr
      rw [hone] at h
      simp only [Option.map_eq_some'] at h
      obtain ⟨cps, hr, hcons⟩ := h
      have h1 : cp = 49 := (List.cons.injEq .. ▸ hcons).1
      have h2 : cps = [] := (List.cons.injEq .. ▸ hcons).2
      subst h1
      rw [h2] at hr
      obtain ⟨hb, hrest⟩ := utf8DecodeOne_ascii b rest 49 rest1 hone (by omega)
      rw [utf8DecodeAux_eq_nil fuel rest1 hr] at hrest
      rw [hb, ← hrest]

/-- `utf8Decode` reconstructs `"1"` only from the byte-string `b"1"`. -/
theorem utf8Decode_eq_one (v : List Nat) (h : utf8Decode v = some [49]) : v = [49] :=
  utf8DecodeAux_eq_one v.length v h

/-- When trace-header extraction raises, `getHandlerContext` catches the
exception, skips the edge-payload handling entirely, and returns a
context carrying a root span, no `raw_request_context` attribute and no
edge context. -/
theorem getHandlerContext_trace_error (h : Handler) (fn : String) (sc : ServerContext)
    (e : PyErr) (he : _get_trace_info sc.headers = Except.error e) :
    ∃ ctx, getHandlerContext h fn sc = Except.ok ctx ∧
      ctx.trace.trace_info = none ∧ ctx.raw_request_context = none ∧
      ctx.edge_context = none ∧ ctx.headers = sc.headers := by
  have hc : e.isCaught = true := _get_trace_info_error_caught sc.headers e he
  unfold getHandlerContext
  simp only [he, hc, if_true]
  cases sc.peerName with
  | none => exact ⟨_, rfl, rfl, rfl, rfl, rfl⟩
  | some peer => exact ⟨_, rfl, rfl, rfl, rfl, rfl⟩

/-- C1 (counterexample).  The claim says a second `handlerDone` after
the span was already finished by either hook is a no-op on the span.
After a first `handlerDone` (which does not set `is_finished`), a second
`handlerDone` calls `finish` again: the span records two finish events. -/
theorem handlerDone_twice_double_finishes :
    (handlerDone startedContext "ping").1.trace.finishes = [FinishKind.success] ∧
    (handlerDone (handlerDone startedContext "ping").1 "ping").1.trace.finishes =
      [FinishKind.success, FinishKind.success] := by
  exact ⟨rfl, rfl⟩

/-- C1 (amended).  After the error hook `handlerError` has finished
the span (setting the completion flag `is_finished`), a subsequent
`handlerDone` is a no-op: it returns the context unchanged, logs
nothing, and does not finish the span again.  `handlerDone` itself never
sets the completion flag, so the guard protects only the
`handlerError`-then-`handlerDone` order, not a repeated `handlerDone`. -/
theorem handlerDone_after_handlerError_noop (ctx : RequestContext) (fn fn2 exc : String) :
    handlerDone (handlerError ctx fn exc).1 fn2 = ((handlerError ctx fn exc).1, []) := rfl

/-- C2 (counterexample).  The claim covers `sampled` under "absent or
fails decimal-integer decoding", but a present `sampled` value that fails
decimal decoding (here `b"abc"`) does not make the descriptor absent:
the code never integer-decodes `sampled`, so a full descriptor with
`sampled = false` is produced, not a root span. -/
theorem sampled_nondecimal_still_descriptor :
    (pyInt? (strBytes "abc")).isNone = true ∧
    lookupCandidates headersSampledNonDecimal (strBytes "Sampled", strBytes "B3-Sampled") =
      some (strBytes "abc") ∧
    ∃ ctx, getHandlerContext ⟨none⟩ "ping" ⟨headersSampledNonDecimal, none⟩ = Except.ok ctx ∧
      ctx.trace.trace_info = some (TraceInfo.from_upstream 100 1 2 false none) := by
  exact ⟨rfl, rfl, _, rfl, rfl⟩

/-- C2 (amended).  If any of the three integer trace fields
(trace_id, span_id, parent_span_id) is absent or fails decimal-integer
decoding, or the sampled field is absent or is not valid UTF-8, then
`getHandlerContext` does not raise: it returns a context whose span was
created with `trace_info` absent (a fresh root span), never a partially
populated descriptor, with no `raw_request_context` attribute and no
edge context. -/
theorem getHandlerContext_bad_mandatory_root_span (h : Handler) (fn : String)
    (sc : ServerContext)
    (hbad : intFieldBad sc.headers (strBytes "Trace", strBytes "B3-TraceId") = true ∨
            intFieldBad sc.headers (strBytes "Span", strBytes "B3-SpanId") = true ∨
            intFieldBad sc.headers (strBytes "Parent", strBytes "B3-ParentSpanId") = true ∨
            sampledFieldBad sc.headers = true) :
    ∃ ctx, getHandlerContext h fn sc = Except.ok ctx ∧ ctx.trace.trace_info = none ∧
      ctx.raw_request_context = none ∧ ctx.edge_context = none := by
  cases hres : _get_trace_info sc.headers with
  | error e =>
    obtain ⟨ctx, h1, h2, h3, h4, h5⟩ := getHandlerContext_trace_error h fn sc e hres
    exact ⟨ctx, h1, h2, h3, h4⟩
  | ok ti =>
    obtain ⟨b1, b2, b3, b4⟩ := _get_trace_info_ok_fields sc.headers ti hres
    rcases hbad with hb | hb | hb | hb <;> simp_all

/-- C2 (witness).  The spec's scenario: headers missing `Sampled`
entirely (with an `Edge-Request` payload present) produce a root-span
context without raising. -/
theorem getHandlerContext_bad_mandatory_root_span_witness :
    (sampledFieldBad headersNoSampled = true) ∧
    (∃ ctx, getHandlerContext ⟨none⟩ "ping" ⟨headersNoSampled, none⟩ = Except.ok ctx ∧
      ctx.trace.trace_info = none ∧ ctx.raw_request_context = none ∧ ctx.edge_context = none) :=
  ⟨by decide,
   getHandlerContext_bad_mandatory_root_span ⟨none⟩ "ping" ⟨headersNoSampled, none⟩
     (Or.inr (Or.inr (Or.inr (by decide))))⟩

/-- C3 (counterexample).  An `Edge-Request` payload is present, the
configured decoder fails on it with a `ValueError`, and the trace-header
lookup has succeeded — yet `getHandlerContext` returns normally (with
the descriptor retained and no edge context): the decode failure is
swallowed, not propagated. -/
theorem edge_decode_valueError_swallowed :
    Headers.get? headersWithEdge (strBytes "Edge-Request") = some (strBytes "payload") ∧
    decoderValueError (some (strBytes "payload")) = Except.error PyErr.valueError ∧
    ∃ ctx, getHandlerContext ⟨some decoderValueError⟩ "ping" ⟨headersWithEdge, none⟩ =
        Except.ok ctx ∧
      ctx.trace.trace_info = some (TraceInfo.from_upstream 100 1 2 true none) ∧
      ctx.edge_context = none := by
  exact ⟨rfl, rfl, _, rfl, rfl, rfl⟩

/-- C3 (amended).  When the trace-header lookup succeeded and the
configured decoder fails on the payload, the outcome depends only on the
exception class: a `KeyError`/`ValueError` decode failure is always
swallowed (the context is returned with the descriptor retained, no edge
context and no `raw_request_context`), while a failure of any other
class always propagates to the caller.  (If the trace lookup failed,
decoding is never attempted.) -/
theorem edge_decode_failure_cases (f : Option ByteStr → Except PyErr EdgeContext)
    (fn : String) (sc : ServerContext) (ti : TraceInfo) (e : PyErr)
    (hti : _get_trace_info sc.headers = Except.ok ti)
    (hf : f (Headers.get? sc.headers (strBytes "Edge-Request")) = Except.error e) :
    (e.isCaught = true →
      ∃ ctx, getHandlerContext ⟨some f⟩ fn sc = Except.ok ctx ∧
        ctx.trace.trace_info = some ti ∧ ctx.edge_context = none ∧
        ctx.raw_request_context = none) ∧
    (e.isCaught = false → getHandlerContext ⟨some f⟩ fn sc = Except.error e) := by
  constructor
  · intro hc
    unfold getHandlerContext
    simp only [hti, hf, hc, if_true]
    cases sc.peerName with
    | none => exact ⟨_, rfl, rfl, rfl, rfl⟩
    | some peer => exact ⟨_, rfl, rfl, rfl, rfl⟩
  · intro hc
    unfold getHandlerContext
    simp [hti, hf, hc]

/-- C3 (witness).  Both arms at concrete inputs: a `ValueError`
decoder is swallowed, an otherwise-classed decoder failure propagates. -/
theorem edge_decode_failure_cases_witness :
    (∃ ctx, getHandlerContext ⟨some decoderValueError⟩ "ping" ⟨headersWithEdge, none⟩ =
        Except.ok ctx ∧
      ctx.trace.trace_info = some (TraceInfo.from_upstream 100 1 2 true none) ∧
      ctx.edge_context = none ∧ ctx.raw_request_context = none) ∧
    getHandlerContext ⟨some decoderOtherError⟩ "ping" ⟨headersWithEdge, none⟩ =
      Except.error PyErr.otherError :=
  ⟨(edge_decode_failure_cases decoderValueError "ping" ⟨headersWithEdge, none⟩
      (TraceInfo.from_upstream 100 1 2 true none) PyErr.valueError rfl rfl).1 rfl,
   (edge_decode_failure_cases decoderOtherError "ping" ⟨headersWithEdge, none⟩
      (TraceInfo.from_upstream 100 1 2 true none) PyErr.otherError rfl rfl).2 rfl⟩

/-- C4.  If trace-header extraction raises, the `Edge-Request`
lookup and attachment are skipped entirely: the returned context has no
`raw_request_context` attribute and no edge context (and a root span),
for every handler — even one with a decoder configured — and every
transport. -/
theorem trace_error_skips_edge (h : Handler) (fn : String) (sc : ServerContext) (e : PyErr)
    (he : _get_trace_info sc.headers = Except.error e) :
    ∃ ctx, getHandlerContext h fn sc = Except.ok ctx ∧ ctx.raw_request_context = none ∧
      ctx.edge_context = none ∧ ctx.trace.trace_info = none := by
  obtain ⟨ctx, h1, h2, h3, h4, h5⟩ := getHandlerContext_trace_error h fn sc e he
  exact ⟨ctx, h1, h3, h4, h2⟩

/-- C4 (witness).  Headers missing `Sampled` but carrying an
`Edge-Request` payload, with a decoder configured that would propagate an
uncaught error if invoked: the decoder is skipped and the context carries
neither attribute. -/
theorem trace_error_skips_edge_witness :
    _get_trace_info headersNoSampled = Except.error PyErr.keyError ∧
    (∃ ctx, getHandlerContext ⟨some decoderOtherError⟩ "ping" ⟨headersNoSampled, none⟩ =
        Except.ok ctx ∧
      ctx.raw_request_context = none ∧ ctx.edge_context = none ∧
      ctx.trace.trace_info = none) :=
  ⟨rfl,
   trace_error_skips_edge ⟨some decoderOtherError⟩ "ping" ⟨headersNoSampled, none⟩
     PyErr.keyError rfl⟩

/-- C5.  For headers `{Trace: "100", Span: "2", Parent: "1",
Sampled: "1"}`, no `Edge-Request` header and no decoder configured,
`getHandlerContext` returns the context with descriptor
`trace_id = 100`, `span_id = 2`, `parent_span_id = 1`, `sampled = true`,
`flags = None`, and `raw_request_context` set to `None`. -/
theorem example_headers_context :
    getHandlerContext ⟨none⟩ "ping" ⟨exampleHeaders, none⟩ =
      Except.ok
        { headers := exampleHeaders,
          trace :=
            { name := "ping",
              trace_info := some
                { trace_id := 100, parent_id := 1, span_id := 2,
                  sampled := true, flags := none },
              started := false, finishes := [], is_finished := none, tags := [] },
          raw_request_context := some none, edge_context := none } := rfl

/-- C6 (counterexample).  The byte 255 is a present `sampled` value
other than `b"1"`, but it does not decode to false: UTF-8 decoding
raises (`UnicodeDecodeError`, a `ValueError`), so descriptor extraction
fails and no sampled flag exists at all. -/
theorem sampled_invalid_utf8_not_false :
    lookupCandidates headersSampledNonUtf8 (strBytes "Sampled", strBytes "B3-Sampled") =
      some [255] ∧
    sampledDecode [255] = Except.error PyErr.valueError ∧
    sampledDecode [255] ≠ Except.ok false ∧
    _get_trace_info headersSampledNonUtf8 = Except.error PyErr.valueError := by
  refine ⟨rfl, rfl, fun hc => ?_, rfl⟩
  rw [show sampledDecode [255] = Except.error PyErr.valueError from rfl] at hc
  exact Except.noConfusion hc

/-- C6 (amended).  For every present `sampled` value that is valid
UTF-8, the decoded flag is `true` iff the value is exactly the
byte-string `b"1"` (byte 49) and `false` for every other such value
(including `b"0"` and `b"true"`); a value that is not valid UTF-8
instead raises a `ValueError`.  The equation below packages all three
facts: the `true` case needs that no other byte sequence decodes to the
one-character string `"1"`, which holds because the strict decoder
rejects overlong encodings. -/
theorem sampledDecode_spec (v : ByteStr) :
    sampledDecode v =
      (if (utf8Decode v).isSome then Except.ok (v == [49])
       else Except.error PyErr.valueError) := by
  unfold sampledDecode
  cases hu : utf8Decode v with
  | none => simp
  | some cps =>
    simp only [Option.isSome_some, if_true]
    congr 1
    by_cases hv : v = [49]
    · subst hv
      have : cps = [49] := by
        have h49 : utf8Decode [49] = some [49] := rfl
        rw [h49] at hu
        exact (Option.some.inj hu).symm
      subst this
      rfl
    · have hcps : cps ≠ [49] := by
        intro hc
        exact hv (utf8Decode_eq_one v (hc ▸ hu))
      simp [hcps, hv]

/-- C7.  For every request context and exception, `handlerError`
unconditionally finishes the span with an error outcome (regardless of
the completion flag's prior value), sets the completion flag, and emits
an error-level log entry naming the operation. -/
theorem handlerError_unconditional (ctx : RequestContext) (fn exc : String) :
    (handlerError ctx fn exc).1.trace.finishes =
      ctx.trace.finishes ++ [FinishKind.error exc] ∧
    (handlerError ctx fn exc).1.trace.is_finished = some true ∧
    (handlerError ctx fn exc).2 =
      [{ level := "error", message := "Unexpected exception in %r.", arg := fn }] :=
  ⟨rfl, rfl, rfl⟩

/-- C8.  Peer tagging is best-effort: with a transport exposing
`getPeerName`, the successful result carries exactly the two peer tags;
with a transport that does not expose it, the successful result carries
no tags; and the presence or absence of the peer capability never
changes whether `getHandlerContext` succeeds or which error it raises
(so a missing peer identity is never an error). -/
theorem peer_tagging_best_effort (h : Handler) (fn : String) (headers : Headers)
    (addr : ByteStr) (port : Int) :
    ((getHandlerContext h fn ⟨headers, some (addr, port)⟩).map (fun ctx => ctx.trace.tags) =
      (getHandlerContext h fn ⟨headers, none⟩).map
        (fun _ => [("peer.ipv4", TagVal.s addr), ("peer.port", TagVal.i port)])) ∧
    ((getHandlerContext h fn ⟨headers, none⟩).map (fun ctx => ctx.trace.tags) =
      (getHandlerContext h fn ⟨headers, none⟩).map
        (fun _ => ([] : List (String × TagVal)))) := by
  unfold getHandlerContext
  cases hti : _get_trace_info headers with
  | error e =>
    cases hc : e.isCaught <;>
      simp [hti, hc, make_server_span, Span.set_tag, Except.map]
  | ok ti =>
    cases hfac : h.edge_context_factory with
    | none => simp [hti, hfac, make_server_span, Span.set_tag, Except.map]
    | some f =>
      cases hf : f (Headers.get? headers (strBytes "Edge-Request")) with
      | ok ec => simp [hti, hfac, hf, make_server_span, Span.set_tag, Except.map]
      | error e =>
        cases hc : e.isCaught <;>
          simp [hti, hfac, hf, hc, make_server_span, Span.set_tag, Except.map]

/-- C9.  The header-name candidate table maps each of the five
logical trace fields to exactly its canonical name followed by its
fallback name, in that order, as byte-strings (`Trace`/`B3-TraceId`,
`Span`/`B3-SpanId`, `Parent`/`B3-ParentSpanId`, `Sampled`/`B3-Sampled`,
`Flags`/`B3-Flags`); consequently a header set using the fallback names
yields the same extraction outcome as one carrying the same values under
the canonical names. -/
theorem trace_header_names_spec :
    (TRACE_HEADER_NAMES =
      [("trace_id", ([84, 114, 97, 99, 101], [66, 51, 45, 84, 114, 97, 99, 101, 73, 100])),
       ("span_id", ([83, 112, 97, 110], [66, 51, 45, 83, 112, 97, 110, 73, 100])),
       ("parent_span_id",
        ([80, 97, 114, 101, 110, 116],
         [66, 51, 45, 80, 97, 114, 101, 110, 116, 83, 112, 97, 110, 73, 100])),
       ("sampled", ([83, 97, 109, 112, 108, 101, 100], [66, 51, 45, 83, 97, 109, 112, 108, 101, 100])),
       ("flags", ([70, 108, 97, 103, 115], [66, 51, 45, 70, 108, 97, 103, 115]))]) ∧
    ∀ (t s p sm : ByteStr) (f : Option ByteStr),
      _get_trace_info (canonicalHeaders t s p sm f) =
        _get_trace_info (fallbackHeaders t s p sm f) := by
  constructor
  · rfl
  · intro t s p sm f
    have hx : extract_upstream_header_values TRACE_HEADER_NAMES (canonicalHeaders t s p sm f) =
        extract_upstream_header_values TRACE_HEADER_NAMES (fallbackHeaders t s p sm f) := by
      cases f <;> rfl
    simp only [_get_trace_info, hx]

/-- C10.  The lifecycle hooks act only on the span and the log: for
every request context, `postRead`, `handlerDone` and `handlerError`
leave the context's `headers`, `raw_request_context` and edge-identity
attributes unchanged. -/
theorem hooks_preserve_context_fields (ctx : RequestContext) (fn fn2 fn3 exc : String) :
    ((postRead ctx fn).1.headers = ctx.headers ∧
     (postRead ctx fn).1.raw_request_context = ctx.raw_request_context ∧
     (postRead ctx fn).1.edge_context = ctx.edge_context) ∧
    ((handlerDone ctx fn2).1.headers = ctx.headers ∧
     (handlerDone ctx fn2).1.raw_request_context = ctx.raw_request_context ∧
     (handlerDone ctx fn2).1.edge_context = ctx.edge_context) ∧
    ((handlerError ctx fn3 exc).1.headers = ctx.headers ∧
     (handlerError ctx fn3 exc).1.raw_request_context = ctx.raw_request_context ∧
     (handlerError ctx fn3 exc).1.edge_context = ctx.edge_context) := by
  refine ⟨⟨rfl, rfl, rfl⟩, ?_, ⟨rfl, rfl, rfl⟩⟩
  unfold handlerDone
  split <;> exact ⟨rfl, rfl, rfl⟩
